import Mathlib

/-!
Shallow embedding of the bulk-image-compressor repository
(`src/image_compressor.py`, with the simpler `src/bulk_image_compressor.py`
variant where a claim cites it).

External collaborators (the filesystem, the PIL imaging primitive) are
modelled as explicit oracles (`FileSystem`, `ImageEnv`); the orchestration
logic — path resolution, constructor validation, worker sizing, the per-image
try/except body, serial loop and parallel signal/drain accounting — is
translated statement by statement from the Python source.

Python's binary floating point in `int((max_width / width) * height)` is
modelled by exact arithmetic: the exact value's floor is `max_width * height
/ width` in `Nat`.  At every concrete input used in a theorem below the float
computation is exact (the ratios involved are dyadic), so model and code
agree there.
-/

namespace BulkImageCompressor

/-- Python `str.lower()` (ASCII case mapping, enough for the names in this
repository), written over the character list so it evaluates by kernel
reduction. -/
def pyLower (s : String) : String := String.mk (s.data.map Char.toLower)

/-- Python `str.upper()` (ASCII case mapping). -/
def pyUpper (s : String) : String := String.mk (s.data.map Char.toUpper)

/-- Python `str.endswith(t)`. -/
def strEndsWith (s t : String) : Bool := t.data.isSuffixOf s.data

/-- Whether `a` is a leading piece of `b` (for the `os.path.relpath` model). -/
def strStartsWith (b a : String) : Bool := a.data.isPrefixOf b.data

/-- Drop the first `n` characters of `s`. -/
def strDrop (s : String) (n : Nat) : String := String.mk (s.data.drop n)

/-- The tuple of suffixes from `file.lower().endswith(('jpg', 'jpeg', 'png',
'webp', 'tiff', 'gif', 'bmp'))` (src/image_compressor.py line 75/86 and
src/bulk_image_compressor.py line 39). -/
def imageSuffixes : List String := ["jpg", "jpeg", "png", "webp", "tiff", "gif", "bmp"]

/-- A filename matches discovery iff its lowercased form ends with one of the
suffixes.  Note: `str.endswith` requires no preceding dot. -/
def isImageFile (name : String) : Bool :=
  imageSuffixes.any fun s => strEndsWith (pyLower name) s

/-- Stem part of Python's `os.path.splitext(file)[0]` for a bare filename (no
directory separators, the only use in the source): split at the last dot,
unless every character before that dot is itself a dot (then no split). -/
def pySplitextStem (name : String) : String :=
  let cs := name.toList
  let dotIdxs := (List.range cs.length).filter fun i => cs.getD i ' ' == '.'
  match dotIdxs.getLast? with
  | none => name
  | some i => if (cs.take i).any (fun c => c ≠ '.') then String.mk (cs.take i) else name

/-- `os.path.join a b` for the uses in the source: `a` nonempty without a
trailing separator, `b` relative. -/
def pathJoin (a b : String) : String := a ++ "/" ++ b

/-- `os.path.relpath p start` for the cases produced by `os.walk`: `p` equals
`start` or lies beneath it. -/
def relpath (p start : String) : String :=
  if p == start then "."
  else if strStartsWith p (start ++ "/") then strDrop p (start.length + 1)
  else p

/-- The output-format validation block of `ImageCompressor.__init__`
(src/image_compressor.py lines 55-59), applied to the already-lowercased
format: `jpg`/`jpeg` become `jpeg`, anything outside jpeg/png/webp defaults
to `jpeg`. -/
def validateFormat (f : String) : String :=
  if f == "jpg" || f == "jpeg" then "jpeg"
  else if f == "jpeg" || f == "png" || f == "webp" then f
  else "jpeg"

/-- Filesystem oracle: `os.path.exists`, `os.path.isdir`, `os.listdir`
(direct child names), `os.walk` (list of (root, files) pairs in walk order),
and `os.makedirs`, which either succeeds or raises (Python raises e.g.
FileNotFoundError for the empty path, PermissionError or NotADirectoryError
for other bad paths). -/
structure FileSystem where
  pathExists : String → Bool
  isDir : String → Bool
  listdir : String → List String
  walk : String → List (String × List String)
  makedirs : String → Except String Unit

/-- `ImageCompressor._get_images` (src/image_compressor.py lines 65-90):
returns (input_path, output_path) pairs in enumeration order.  The
`output_format` argument is the string the method reads from `self` at call
time (__init__ calls it BEFORE the validation block runs, so it receives the
raw lowercased format). -/
def getImages (fs : FileSystem) (input_folder output_folder output_format : String)
    (recursive break_structure : Bool) : List (String × String) :=
  if recursive then
    (fs.walk input_folder).flatMap fun rf =>
      (rf.2.filter isImageFile).map fun file =>
        let input_path := pathJoin rf.1 file
        let output_dir :=
          if break_structure then output_folder
          else pathJoin output_folder (relpath rf.1 input_folder)
        (input_path, pathJoin output_dir (pySplitextStem file ++ "." ++ output_format))
  else
    ((fs.listdir input_folder).filter isImageFile).map fun file =>
      (pathJoin input_folder file,
        pathJoin output_folder (pySplitextStem file ++ "." ++ output_format))

/-- `_get_images` of the simpler variant src/bulk_image_compressor.py line 39:
returns the matching filenames only. -/
def getImagesBulk (fs : FileSystem) (input_folder : String) : List String :=
  (fs.listdir input_folder).filter isImageFile

/-- The state `ImageCompressor.__init__` leaves behind. -/
structure Compressor where
  input_folder : String
  output_folder : String
  quality : Int
  resize : Bool
  max_width : Nat
  output_format : String
  recursive : Bool
  break_structure : Bool
  parallel : Bool
  images : List (String × String)
deriving DecidableEq

/-- The exceptions `__init__` can raise: the explicit FileNotFoundError of
the input-folder check (lines 40-41), or whatever the trailing
`os.makedirs(output_folder)` call (lines 62-63) raises. -/
inductive InitError where
  | fileNotFound (msg : String)
  | makedirsError (msg : String)
deriving DecidableEq

/-- `ImageCompressor.__init__` (src/image_compressor.py lines 24-63), in the
source's statement order: (1) raise FileNotFoundError unless the input folder
exists and is a directory; (2) store the lowercased output format; (3) compute
`self.images` with that raw format; (4) only then normalize/validate the
format; (5) finally, `if not os.path.exists(output_folder):
os.makedirs(output_folder)` — a call that can itself raise (e.g.
FileNotFoundError for an empty output path), which propagates out of the
constructor. -/
def initCompressor (fs : FileSystem) (input_folder output_folder : String)
    (quality : Int) (resize : Bool) (max_width : Nat) (output_format : String)
    (recursive break_structure parallel : Bool) : Except InitError Compressor :=
  if !fs.pathExists input_folder || !fs.isDir input_folder then
    Except.error (InitError.fileNotFound
      ("Error: Input folder '" ++ input_folder ++ "' does not exist or is not a directory."))
  else
    let fmt0 := pyLower output_format
    let images := getImages fs input_folder output_folder fmt0 recursive break_structure
    let fmt := validateFormat fmt0
    let c : Compressor :=
      { input_folder := input_folder, output_folder := output_folder,
        quality := quality, resize := resize, max_width := max_width,
        output_format := fmt, recursive := recursive,
        break_structure := break_structure, parallel := parallel,
        images := images }
    if fs.pathExists output_folder then Except.ok c
    else
      match fs.makedirs output_folder with
      | Except.error e => Except.error (InitError.makedirsError e)
      | Except.ok _ => Except.ok c

/-- Dimensions after the resize step of `_compress_image` (lines 154-156):
`if self.resize and img.width > self.max_width: new_height =
int((self.max_width / img.width) * img.height)`.  Exact-arithmetic model of
the float expression; `int()` truncates, which on nonnegative exact values is
`Nat` division. -/
def resizedDims (resize : Bool) (max_width w h : Nat) : Nat × Nat :=
  if resize = true ∧ max_width < w then (max_width, max_width * h / w) else (w, h)

/-- Modelled from the spec wording only (for comparison with `resizedDims`):
`round(max_width * source_height / source_width)` with Python's
round-half-to-even, as `specRound (max_width * h) w`. -/
def specRound (num den : Nat) : Nat :=
  let q := num / den
  let r := num % den
  if 2 * r < den then q
  else if den < 2 * r then q + 1
  else if q % 2 = 0 then q else q + 1

/-- One attempted `img.save(output_path, format=..., quality=..., optimize=True)`
call, with the dimensions the image has at that point. -/
structure SaveCall where
  path : String
  format : String
  quality : Int
  width : Nat
  height : Nat
deriving DecidableEq

/-- Observable effects of one `_compress_image` call: error-log lines
appended, worker ids put on the progress queue, save calls attempted. -/
structure JobEffects where
  logLines : List String
  signals : List Nat
  saves : List SaveCall
deriving DecidableEq

/-- Imaging oracle: `Image.open(...).convert("RGB")` yields the (width,
height) of the decoded image or raises, and `img.save(output_path, ...)`
succeeds or raises, per path. -/
structure ImageEnv where
  decode : String → Except String (Nat × Nat)
  saveResult : String → Except String Unit

/-- The error-log line of lines 162-165: `f"Error :: {input_path} :: {e}"`. -/
def errLine (input_path cause : String) : String :=
  "Error :: " ++ input_path ++ " :: " ++ cause

/-- The `try:` body of `_compress_image` (lines 151-160): decode, resize,
save, and — only after a successful save and only when called with a worker
id (parallel mode) — put one signal on the progress queue.  Returns the
effects performed together with the exception, if one was raised partway. -/
def tryBody (env : ImageEnv) (c : Compressor) (input_path output_path : String)
    (worker_id : Option Nat) : JobEffects × Option String :=
  match env.decode input_path with
  | Except.error e => (⟨[], [], []⟩, some e)
  | Except.ok wh =>
    let dims := resizedDims c.resize c.max_width wh.1 wh.2
    let call : SaveCall :=
      ⟨output_path, pyUpper c.output_format, c.quality, dims.1, dims.2⟩
    match env.saveResult output_path with
    | Except.error e => (⟨[], [], [call]⟩, some e)
    | Except.ok _ => (⟨[], worker_id.toList, [call]⟩, none)

/-- `ImageCompressor._compress_image` (lines 150-165): run the body; any
exception is caught by the `except Exception` handler, which appends one
formatted line to error_log.txt and returns normally. -/
def compressImage (env : ImageEnv) (c : Compressor) (input_path output_path : String)
    (worker_id : Option Nat) : JobEffects :=
  match tryBody env c input_path output_path worker_id with
  | (eff, some e) => { eff with logLines := eff.logLines ++ [errLine input_path e] }
  | (eff, none) => eff

/-- A job succeeds when both its decode and its save succeed. -/
def jobSucceeds (env : ImageEnv) (input_path output_path : String) : Bool :=
  (env.decode input_path).isOk && (env.saveResult output_path).isOk

/-- The cause string of the first failure in a job's body (empty when the job
succeeds). -/
def jobCause (env : ImageEnv) (input_path output_path : String) : String :=
  match env.decode input_path with
  | Except.error e => e
  | Except.ok _ =>
    match env.saveResult output_path with
    | Except.error e => e
    | Except.ok _ => ""

/-- One iteration of the serial loop (lines 108-112): run `_compress_image`
with no worker id, then `pbar.update(1)` unconditionally.  State: effects so
far and the progress-bar count. -/
def serialStep (env : ImageEnv) (c : Compressor) (st : List JobEffects × Nat)
    (job : String × String) : List JobEffects × Nat :=
  (st.1 ++ [compressImage env c job.1 job.2 none], st.2 + 1)

/-- The serial branch of `compress_images`: fold the loop body over
`self.images`. -/
def runSerial (env : ImageEnv) (c : Compressor) : List JobEffects × Nat :=
  c.images.foldl (serialStep env c) (([], 0) : List JobEffects × Nat)

/-- Parallel mode (lines 136-148): every indexed job is dispatched via
`apply_async`; the pool runs each to completion.  Per-job effects in dispatch
order. -/
def parallelJobEffects (env : ImageEnv) (c : Compressor) : List JobEffects :=
  (c.images.enum).map fun p => compressImage env c p.2.1 p.2.2 (some p.1)

/-- All worker ids ever put on the shared progress queue during a parallel
run. -/
def parallelSignals (env : ImageEnv) (c : Compressor) : List Nat :=
  (parallelJobEffects env c).flatMap JobEffects.signals

/-- The draining loop (lines 142-146) performs `progress_queue.get()` exactly
`len(self.images)` times, each call blocking until a signal is available; it
can run to completion iff at least that many signals are ever put. -/
def drainTerminates (env : ImageEnv) (c : Compressor) : Bool :=
  decide (c.images.length ≤ (parallelSignals env c).length)

/-- Worker sizing of `_compress_images_parallel` (lines 122-132): one CPU
load sample (a percentage, modelled as an exact rational) and the core
count. -/
def numWorkers (cores : Nat) (load : ℚ) : Nat :=
  if load ≤ 25 then max 1 (cores / 2 + 1)
  else if load ≤ 50 then max 1 (cores / 2)
  else 1

end BulkImageCompressor

namespace BulkImageCompressor

/-! ## Concrete fixtures -/

/-- Concrete filesystem: a directory `in` with one file `bad.jpg`. -/
def fs1 : FileSystem where
  pathExists := fun p => p == "in"
  isDir := fun p => p == "in"
  listdir := fun p => if p == "in" then ["bad.jpg"] else []
  walk := fun p => if p == "in" then [("in", ["bad.jpg"])] else []
  makedirs := fun p => if p == "" then Except.error "FileNotFoundError" else Except.ok ()

/-- Concrete filesystem for the flatten-collision scenario: `in/a/x.png` and
`in/b/x.png`. -/
def fs8 : FileSystem where
  pathExists := fun p => p == "in"
  isDir := fun p => p == "in"
  listdir := fun _ => []
  walk := fun p => if p == "in" then [("in/a", ["x.png"]), ("in/b", ["x.png"])] else []
  makedirs := fun p => if p == "" then Except.error "FileNotFoundError" else Except.ok ()

/-- Concrete filesystem for the extension-matching scenario: files `photojpg`
and `x.notpng` (no real image extension). -/
def fs9 : FileSystem where
  pathExists := fun p => p == "in"
  isDir := fun p => p == "in"
  listdir := fun p => if p == "in" then ["photojpg", "x.notpng"] else []
  walk := fun p => if p == "in" then [("in", ["photojpg", "x.notpng"])] else []
  makedirs := fun p => if p == "" then Except.error "FileNotFoundError" else Except.ok ()

/-- Imaging oracle where every decode raises (e.g. `bad.jpg` holds arbitrary
non-image bytes). -/
def envFail : ImageEnv where
  decode := fun _ => Except.error "boom"
  saveResult := fun _ => Except.ok ()

/-- Imaging oracle where every job succeeds; decoded images are 1600x900. -/
def envOk : ImageEnv where
  decode := fun _ => Except.ok (1600, 900)
  saveResult := fun _ => Except.ok ()

/-- The compressor state obtained from `fs1` with default-like options and
parallel mode on. -/
def comp1 : Compressor :=
  { input_folder := "in", output_folder := "out", quality := 80, resize := false,
    max_width := 1024, output_format := "jpeg", recursive := false,
    break_structure := false, parallel := true,
    images := [("in/bad.jpg", "out/bad.jpeg")] }

instance {e a : Type} [DecidableEq e] [DecidableEq a] : DecidableEq (Except e a) := fun x y =>
  match x, y with
  | Except.error u, Except.error v =>
    if h : u = v then Decidable.isTrue (by rw [h])
    else Decidable.isFalse (by intro hc; cases hc; exact h rfl)
  | Except.error _, Except.ok _ => Decidable.isFalse (by intro hc; cases hc)
  | Except.ok _, Except.error _ => Decidable.isFalse (by intro hc; cases hc)
  | Except.ok u, Except.ok v =>
    if h : u = v then Decidable.isTrue (by rw [h])
    else Decidable.isFalse (by intro hc; cases hc; exact h rfl)

theorem comp1_from_init :
    initCompressor fs1 "in" "out" 80 false 1024 "jpeg" false false true = Except.ok comp1 := by
  decide

/-- As `comp1`, but constructed with the out-of-range quality 500 and serial
mode. -/
def comp500 : Compressor := { comp1 with quality := 500, parallel := false }

theorem comp500_from_init :
    initCompressor fs1 "in" "out" 500 false 1024 "jpeg" false false false =
      Except.ok comp500 := by
  decide

/-! ## Helper lemmas shared across claims -/

theorem compressImage_signals (env : ImageEnv) (c : Compressor) (ip op : String)
    (wid : Option Nat) :
    (compressImage env c ip op wid).signals =
      if jobSucceeds env ip op = true then wid.toList else [] := by
  unfold compressImage tryBody jobSucceeds
  cases env.decode ip <;> cases env.saveResult op <;>
    simp [Except.isOk, Except.toBool]

theorem compressImage_logLines (env : ImageEnv) (c : Compressor) (ip op : String)
    (wid : Option Nat) :
    (compressImage env c ip op wid).logLines =
      if jobSucceeds env ip op = true then [] else [errLine ip (jobCause env ip op)] := by
  unfold compressImage tryBody jobSucceeds jobCause
  cases env.decode ip <;> cases env.saveResult op <;>
    simp [Except.isOk, Except.toBool]

theorem foldl_serialStep_counts (env : ImageEnv) (c : Compressor) :
    ∀ (l : List (String × String)) (acc : List JobEffects × Nat),
      (l.foldl (serialStep env c) acc).1.length = acc.1.length + l.length ∧
      (l.foldl (serialStep env c) acc).2 = acc.2 + l.length := by
  intro l
  induction l with
  | nil => intro acc; simp
  | cons a l ih =>
    intro acc
    have h := ih (serialStep env c acc a)
    simp only [List.foldl_cons] at h ⊢
    simp [serialStep] at h ⊢
    omega

theorem signals_enumFrom (env : ImageEnv) (c : Compressor) :
    ∀ (l : List (String × String)) (n : Nat),
      (((List.enumFrom n l).map fun p => compressImage env c p.2.1 p.2.2 (some p.1)).flatMap
          JobEffects.signals).length =
        l.countP fun p => jobSucceeds env p.1 p.2 := by
  intro l
  induction l with
  | nil => intro n; simp
  | cons a l ih =>
    intro n
    simp only [List.enumFrom, List.map_cons, List.flatMap_cons, List.length_append,
      List.countP_cons, compressImage_signals]
    rw [ih]
    by_cases h : jobSucceeds env a.1 a.2 = true
    · simp [h]
      omega
    · simp [h]

theorem parallelSignals_length (env : ImageEnv) (c : Compressor) :
    (parallelSignals env c).length = c.images.countP fun p => jobSucceeds env p.1 p.2 := by
  have h := signals_enumFrom env c c.images 0
  simpa [parallelSignals, parallelJobEffects, List.enum] using h

end BulkImageCompressor

namespace BulkImageCompressor

/-! ## Claim theorems -/

/-- Characterization of the code's completion-signal accounting (supporting
C1/C2): in serial mode the progress bar advances exactly once per job
regardless of outcome and the loop visits every job; in parallel mode a job
puts exactly one signal on the progress queue iff it succeeds and none when
it fails (the `progress_queue.put` sits inside the `try` after the save), so
the total number of completion signals equals the number of successful
jobs. -/
theorem signal_accounting (env : ImageEnv) (c : Compressor) :
    (runSerial env c).2 = c.images.length ∧
    (runSerial env c).1.length = c.images.length ∧
    (∀ ip op i, (compressImage env c ip op (some i)).signals =
        if jobSucceeds env ip op = true then [i] else []) ∧
    (parallelSignals env c).length = c.images.countP fun p => jobSucceeds env p.1 p.2 := by
  refine ⟨?_, ?_, ?_, parallelSignals_length env c⟩
  · have h := foldl_serialStep_counts env c c.images ([], 0)
    simpa [runSerial] using h.2
  · have h := foldl_serialStep_counts env c c.images ([], 0)
    simpa [runSerial] using h.1
  · intro ip op i
    simpa using compressImage_signals env c ip op (some i)

theorem signal_accounting_example :
    (runSerial envOk comp1).2 = comp1.images.length ∧
    (parallelSignals envOk comp1).length =
      comp1.images.countP fun p => jobSucceeds envOk p.1 p.2 :=
  ⟨(signal_accounting envOk comp1).1,
   (signal_accounting envOk comp1).2.2.2⟩

/-- C1: evaluation of the code at the failing input.  `comp1` dispatches one
job; with the decode of `bad.jpg` raising, the parallel run emits zero
completion signals, so the signal count does not equal the dispatch count —
even though the draining loop's own bound (`len(self.images)` gets) assumes
one signal per dispatched job. -/
theorem C1_failing_run_evaluation :
    comp1.images.length = 1 ∧ (parallelSignals envFail comp1).length = 0 ∧
    (0 : Nat) ≠ 1 := by decide

/-- Characterization of the draining loop (supporting C2): the loop performs
one blocking `get` per dispatched job, and enough signals are ever put iff
every job succeeds; a single failing job emits no signal, so the drain then
blocks forever instead of proceeding to Done. -/
theorem drain_terminates_iff_all_jobs_succeed (env : ImageEnv) (c : Compressor) :
    drainTerminates env c = true ↔ ∀ p ∈ c.images, jobSucceeds env p.1 p.2 = true := by
  unfold drainTerminates
  rw [decide_eq_true_eq, parallelSignals_length]
  constructor
  · intro h p hp
    have hle := List.countP_le_length (p := fun p => jobSucceeds env p.1 p.2) (l := c.images)
    have heq : c.images.countP (fun p => jobSucceeds env p.1 p.2) = c.images.length :=
      Nat.le_antisymm hle h
    exact (List.countP_eq_length.mp heq) p hp
  · intro h
    have heq : c.images.countP (fun p => jobSucceeds env p.1 p.2) = c.images.length :=
      List.countP_eq_length.mpr h
    omega

theorem drain_terminates_example : drainTerminates envOk comp1 = true :=
  (drain_terminates_iff_all_jobs_succeed envOk comp1).mpr (by decide)

/-- C2: evaluation of the code at the failing input.  One dispatched job
whose decode raises — the drain loop waits for one signal but none is ever
put, so it blocks forever and Done is never reached. -/
theorem C2_failing_run_evaluation :
    drainTerminates envFail comp1 = false ∧ comp1.images.length = 1 := by decide

/-- C3 (amended): exactly one line is appended to the error log per failed
job and zero per successful job, but the line reads
`Error :: input_path :: cause` — a literal `Error` prefix and no byte-size
field. -/
theorem C3_log_line_amended (env : ImageEnv) (c : Compressor) (ip op : String)
    (wid : Option Nat) :
    (compressImage env c ip op wid).logLines =
      if jobSucceeds env ip op = true then []
      else ["Error :: " ++ ip ++ " :: " ++ jobCause env ip op] := by
  have h := compressImage_logLines env c ip op wid
  simpa [errLine] using h

theorem C3_witness :
    (compressImage envFail comp1 "in/bad.jpg" "out/bad.jpeg" none).logLines =
      if jobSucceeds envFail "in/bad.jpg" "out/bad.jpeg" = true then []
      else ["Error :: " ++ "in/bad.jpg" ++ " :: " ++
        jobCause envFail "in/bad.jpg" "out/bad.jpeg"] :=
  C3_log_line_amended envFail comp1 "in/bad.jpg" "out/bad.jpeg" none

/-- C3 counterexample: for the unreadable `in/bad.jpg` with cause `boom` the
appended line is `Error :: in/bad.jpg :: boom`, not the claimed
`in/bad.jpg :: 0 :: boom` (byte size 0 for an unreadable input). -/
theorem C3_counterexample :
    (compressImage envFail comp1 "in/bad.jpg" "out/bad.jpeg" none).logLines =
      ["Error :: in/bad.jpg :: boom"] ∧
    ("Error :: in/bad.jpg :: boom" : String) ≠ "in/bad.jpg :: 0 :: boom" := by decide

/-- C4 (amended): with resize enabled and source width above max_width the
output is `(max_width, int((max_width / w) * h))` — truncation (floor), not
rounding; at 1600x900 with max_width 800 the exact value 450 makes truncation
and rounding coincide; otherwise dimensions are unchanged. -/
theorem C4_resize_truncates_amended (resize : Bool) (mw w h : Nat) :
    (resize = true → mw < w → resizedDims resize mw w h = (mw, mw * h / w)) ∧
    (resize = false ∨ w ≤ mw → resizedDims resize mw w h = (w, h)) ∧
    resizedDims true 800 1600 900 = (800, 450) := by
  refine ⟨?_, ?_, by decide⟩
  · intro hr hw
    simp [resizedDims, hr, hw]
  · intro hd
    rcases hd with hd | hd
    · simp [resizedDims, hd]
    · have hnc : ¬(resize = true ∧ mw < w) := fun hc => (Nat.not_lt.mpr hd) hc.2
      simp [resizedDims, hnc]

theorem C4_witness :
    resizedDims true 800 1600 900 = (800, 800 * 900 / 1600) ∧
    resizedDims false 800 1600 900 = (1600, 900) :=
  ⟨(C4_resize_truncates_amended true 800 1600 900).1 rfl (by decide),
   (C4_resize_truncates_amended false 800 1600 900).2.1 (Or.inl rfl)⟩

/-- C4 counterexample: source 1600x899, max_width 800.  The float value
`(800 / 1600) * 899 = 449.5` is exact in binary floating point; the code's
`int()` truncates to 449, while the claimed `round(800*899/1600)` is 450
(Python rounds the tie 449.5 to the even 450). -/
theorem C4_counterexample :
    resizedDims true 800 1600 899 = (800, 449) ∧
    specRound (800 * 899) 1600 = 450 ∧ (449 : Nat) ≠ 450 := by decide

end BulkImageCompressor

namespace BulkImageCompressor

/-- The try body of `_compress_image` never itself appends a log line, and
when it raises it has put no signal on the queue. -/
theorem tryBody_effects (env : ImageEnv) (c : Compressor) (ip op : String)
    (wid : Option Nat) :
    (tryBody env c ip op wid).1.logLines = [] ∧
    ((tryBody env c ip op wid).2 ≠ none → (tryBody env c ip op wid).1.signals = []) := by
  unfold tryBody
  cases env.decode ip <;> cases env.saveResult op <;> simp

/-- Every save call attempted by `_compress_image` carries the compressor's
stored quality, unchanged. -/
theorem compressImage_saves_quality (env : ImageEnv) (c : Compressor) (ip op : String)
    (wid : Option Nat) :
    ((compressImage env c ip op wid).saves.all
      fun call => call.quality == c.quality) = true := by
  unfold compressImage tryBody
  cases env.decode ip <;> cases env.saveResult op <;> simp

/-- C5: the code computes `self.images` (and hence every output path) BEFORE
the output-format validation block runs, so the path extension is the raw
lowercased constructor argument while the stored encoding format is the
normalized one.  With format `jpg` the output path ends in `.jpg` but the
file is encoded as `jpeg`; with the invalid format `tiff` the path ends in
`.tiff` yet the bytes are JPEG.  This contradicts the validation block's
evident purpose and the claim. -/
theorem C5_extension_mismatch :
    initCompressor fs1 "in" "out" 80 false 1024 "jpg" false false false =
      Except.ok
        { input_folder := "in", output_folder := "out", quality := 80, resize := false,
          max_width := 1024, output_format := "jpeg", recursive := false,
          break_structure := false, parallel := false,
          images := [("in/bad.jpg", "out/bad.jpg")] } ∧
    ("out/bad.jpg" : String) ≠ "out/bad.jpeg" ∧
    initCompressor fs1 "in" "out" 80 false 1024 "tiff" false false false =
      Except.ok
        { input_folder := "in", output_folder := "out", quality := 80, resize := false,
          max_width := 1024, output_format := "jpeg", recursive := false,
          break_structure := false, parallel := false,
          images := [("in/bad.jpg", "out/bad.tiff")] } := by
  refine ⟨by decide, by decide, by decide⟩

/-- C6: the parallel worker count is the claimed step function of the one-shot
CPU load sample and the core count, always at least 1; on an 8-core machine
loads 20, 40 and 70 give 5, 4 and 1 workers. -/
theorem C6_worker_sizing (cores : Nat) (load : ℚ) :
    (load ≤ 25 → numWorkers cores load = max 1 (cores / 2 + 1)) ∧
    (25 < load → load ≤ 50 → numWorkers cores load = max 1 (cores / 2)) ∧
    (50 < load → numWorkers cores load = 1) ∧
    1 ≤ numWorkers cores load ∧
    numWorkers 8 20 = 5 ∧ numWorkers 8 40 = 4 ∧ numWorkers 8 70 = 1 := by
  refine ⟨?_, ?_, ?_, ?_, by norm_num [numWorkers], by norm_num [numWorkers],
    by norm_num [numWorkers]⟩
  · intro hle
    simp [numWorkers, hle]
  · intro hgt hle
    have hn : ¬ load ≤ 25 := by linarith
    simp [numWorkers, hn, hle]
  · intro hgt
    have hn1 : ¬ load ≤ 25 := by linarith
    have hn2 : ¬ load ≤ 50 := by linarith
    simp [numWorkers, hn1, hn2]
  · unfold numWorkers
    split
    · exact le_max_left 1 _
    split
    · exact le_max_left 1 _
    · exact le_refl 1

theorem C6_witness :
    (20 : ℚ) ≤ 25 ∧ numWorkers 8 20 = max 1 (8 / 2 + 1) :=
  ⟨by norm_num, (C6_worker_sizing 8 20).1 (by norm_num)⟩

/-- C7: every exception raised inside the try body of `_compress_image`
(decode, resize or save) is caught at that boundary: the call returns
normally with exactly one formatted log line and no completion signal; when
no exception is raised the body's effects pass through unchanged; and the
serial loop therefore runs one `_compress_image` per listed job, never
unwinding. -/
theorem C7_per_job_errors_caught (env : ImageEnv) (c : Compressor) (ip op : String)
    (wid : Option Nat) (e : String) :
    ((tryBody env c ip op wid).2 = some e →
      compressImage env c ip op wid =
        { logLines := [errLine ip e], signals := [],
          saves := (tryBody env c ip op wid).1.saves }) ∧
    ((tryBody env c ip op wid).2 = none →
      compressImage env c ip op wid = (tryBody env c ip op wid).1) ∧
    (runSerial env c).1.length = c.images.length := by
  refine ⟨?_, ?_, ?_⟩
  · intro hexc
    have heff := tryBody_effects env c ip op wid
    unfold compressImage
    rcases htb : tryBody env c ip op wid with ⟨⟨ll, sg, sv⟩, exc⟩
    rw [htb] at hexc heff
    cases exc with
    | none => exact absurd hexc (by simp)
    | some e2 =>
      have he : e2 = e := by simpa using hexc
      subst he
      have h1 : ll = [] := heff.1
      have h2 : sg = [] := heff.2 (by simp)
      subst h1
      subst h2
      rfl
  · intro hnone
    unfold compressImage
    rcases htb : tryBody env c ip op wid with ⟨⟨ll, sg, sv⟩, exc⟩
    rw [htb] at hnone
    cases exc with
    | none => rfl
    | some e2 => exact absurd hnone (by simp)
  · have h := foldl_serialStep_counts env c c.images ([], 0)
    simpa [runSerial] using h.1

theorem C7_witness :
    (tryBody envFail comp1 "in/bad.jpg" "out/bad.jpeg" none).2 = some "boom" ∧
    compressImage envFail comp1 "in/bad.jpg" "out/bad.jpeg" none =
      { logLines := [errLine "in/bad.jpg" "boom"], signals := [],
        saves := (tryBody envFail comp1 "in/bad.jpg" "out/bad.jpeg" none).1.saves } :=
  ⟨by decide,
   (C7_per_job_errors_caught envFail comp1 "in/bad.jpg" "out/bad.jpeg" none "boom").1
     (by decide)⟩

/-- C8: in recursive mode with flatten on, any two discovered inputs with the
same stem and the same output format resolve to the identical output path
directly under the output folder; both jobs are nonetheless present in the
job list (no error is raised for the collision — path resolution is total,
and per C7 compression never raises either). -/
theorem C8_flatten_collision (fs : FileSystem) (inF outF fmt : String)
    (r1 r2 : String) (files1 files2 : List String) (f1 f2 : String)
    (h1 : (r1, files1) ∈ fs.walk inF) (h2 : (r2, files2) ∈ fs.walk inF)
    (hf1 : f1 ∈ files1) (hf2 : f2 ∈ files2)
    (hi1 : isImageFile f1 = true) (hi2 : isImageFile f2 = true)
    (hstem : pySplitextStem f1 = pySplitextStem f2) :
    ∃ op, (pathJoin r1 f1, op) ∈ getImages fs inF outF fmt true true ∧
          (pathJoin r2 f2, op) ∈ getImages fs inF outF fmt true true ∧
          op = pathJoin outF (pySplitextStem f1 ++ "." ++ fmt) := by
  refine ⟨pathJoin outF (pySplitextStem f1 ++ "." ++ fmt), ?_, ?_, rfl⟩
  · simp only [getImages, if_true]
    refine List.mem_flatMap.mpr ⟨(r1, files1), h1, ?_⟩
    refine List.mem_map.mpr ⟨f1, List.mem_filter.mpr ⟨hf1, hi1⟩, ?_⟩
    simp
  · simp only [getImages, if_true]
    refine List.mem_flatMap.mpr ⟨(r2, files2), h2, ?_⟩
    refine List.mem_map.mpr ⟨f2, List.mem_filter.mpr ⟨hf2, hi2⟩, ?_⟩
    simp [hstem]

theorem C8_witness :
    ∃ op, (pathJoin "in/a" "x.png", op) ∈ getImages fs8 "in" "out" "jpeg" true true ∧
          (pathJoin "in/b" "x.png", op) ∈ getImages fs8 "in" "out" "jpeg" true true ∧
          op = pathJoin "out" (pySplitextStem "x.png" ++ "." ++ "jpeg") :=
  C8_flatten_collision fs8 "in" "out" "jpeg" "in/a" "in/b" ["x.png"] ["x.png"]
    "x.png" "x.png" (by decide) (by decide) (by decide) (by decide)
    (by decide) (by decide) rfl

/-- C9: discovery matches a file iff its lowercased name ends with one of the
seven character sequences — no dot required — so `photojpg` and `x.notpng`
are matched and dispatched as jobs, in both source variants; in non-recursive
mode the dispatched input paths are exactly the matching directory entries. -/
theorem C9_suffix_needs_no_dot (fs : FileSystem) (inF outF fmt : String) (f : String) :
    (isImageFile f = true ↔ ∃ s ∈ imageSuffixes, strEndsWith (pyLower f) s = true) ∧
    isImageFile "photojpg" = true ∧
    isImageFile "x.notpng" = true ∧
    ((getImages fs inF outF fmt false false).map Prod.fst =
      ((fs.listdir inF).filter isImageFile).map (pathJoin inF)) ∧
    getImagesBulk fs9 "in" = ["photojpg", "x.notpng"] ∧
    (getImages fs9 "in" "out" "jpeg" false false).map Prod.fst =
      ["in/photojpg", "in/x.notpng"] := by
  refine ⟨?_, by decide, by decide, ?_, by decide, by decide⟩
  · simp [isImageFile, List.any_eq_true]
  · simp only [getImages, Bool.false_eq_true, if_false]
    rw [List.map_map]
    rfl

theorem C9_witness : isImageFile "photojpg" = true :=
  (C9_suffix_needs_no_dot fs9 "in" "out" "jpeg" "photojpg").2.1

/-- C10 (amended): the constructor raises the explicit FileNotFoundError
whenever the input folder is missing or not a directory; with a valid input
folder it raises only when the trailing `os.makedirs(output_folder)` call
(run because the output folder does not yet exist) itself raises, and
otherwise succeeds — no constructor argument is validated: any quality value,
including 0 or 500, is accepted, stored unchanged, and passed unchanged to
every save call. -/
theorem C10_init_validation_amended (fs : FileSystem) (inF outF : String) (q : Int)
    (rz : Bool) (mw : Nat) (fmt : String) (rec bs par : Bool) :
    ((fs.pathExists inF = false ∨ fs.isDir inF = false) →
      ∃ m, initCompressor fs inF outF q rz mw fmt rec bs par =
        Except.error (InitError.fileNotFound m)) ∧
    (fs.pathExists inF = true → fs.isDir inF = true →
      (fs.pathExists outF = true ∨ fs.makedirs outF = Except.ok ()) →
      (initCompressor fs inF outF q rz mw fmt rec bs par).isOk = true) ∧
    (∀ e, fs.pathExists inF = true → fs.isDir inF = true →
      fs.pathExists outF = false → fs.makedirs outF = Except.error e →
      initCompressor fs inF outF q rz mw fmt rec bs par =
        Except.error (InitError.makedirsError e)) ∧
    (∀ c, initCompressor fs inF outF q rz mw fmt rec bs par = Except.ok c →
      c.quality = q ∧
      ∀ env ip op wid,
        ((compressImage env c ip op wid).saves.all
          fun call => call.quality == q) = true) := by
  refine ⟨?_, ?_, ?_, ?_⟩
  · intro hbad
    unfold initCompressor
    have hcond : (!fs.pathExists inF || !fs.isDir inF) = true := by
      rcases hbad with hb | hb <;> simp [hb]
    rw [if_pos hcond]
    exact ⟨_, rfl⟩
  · intro hex hdir hmk
    unfold initCompressor
    rcases hmk with hout | hok
    · simp [hex, hdir, hout, Except.isOk, Except.toBool]
    · by_cases hout : fs.pathExists outF = true <;>
        simp [hex, hdir, hout, hok, Except.isOk, Except.toBool]
  · intro e hex hdir hout hmkerr
    unfold initCompressor
    simp [hex, hdir, hout, hmkerr]
  · intro c hc
    unfold initCompressor at hc
    by_cases hex : fs.pathExists inF <;> by_cases hdir : fs.isDir inF <;>
      by_cases hout : fs.pathExists outF <;> cases hmk : fs.makedirs outF <;>
      simp [hex, hdir, hout, hmk] at hc <;>
      (subst hc
       exact ⟨rfl, fun env ip op wid => compressImage_saves_quality env _ ip op wid⟩)

theorem C10_witness :
    (initCompressor fs1 "in" "out" 500 false 1024 "jpeg" false false false).isOk = true ∧
    comp500.quality = 500 ∧
    ((compressImage envOk comp500 "in/bad.jpg" "out/bad.jpeg" none).saves.all
      fun call => call.quality == (500 : Int)) = true :=
  ⟨(C10_init_validation_amended fs1 "in" "out" 500 false 1024 "jpeg" false false false).2.1
      (by decide) (by decide) (Or.inr (by decide)),
   ((C10_init_validation_amended fs1 "in" "out" 500 false 1024 "jpeg" false false false).2.2.2
      comp500 comp500_from_init).1,
   ((C10_init_validation_amended fs1 "in" "out" 500 false 1024 "jpeg" false false false).2.2.2
      comp500 comp500_from_init).2 envOk "in/bad.jpg" "out/bad.jpeg" none⟩

/-- C10 counterexample: with the input folder `in` existing and a directory,
construction still raises — the trailing `os.makedirs(output_folder)` raises
FileNotFoundError for `output_folder = ""` — so "raises if and only if the
input folder does not exist or is not a directory" is false on the code. -/
theorem C10_counterexample :
    fs1.pathExists "in" = true ∧ fs1.isDir "in" = true ∧
    initCompressor fs1 "in" "" 80 false 1024 "jpeg" false false false =
      Except.error (InitError.makedirsError "FileNotFoundError") := by decide

end BulkImageCompressor
